import Mathlib

/-!
Shallow embedding of the restaurant table / order / billing core of the
repository (`restaurant/models.py`, `restaurant/views.py`,
`restaurant/tasks.py`, `restaurant/notifications.py`).

Conventions used throughout:

* `Decimal` amounts are embedded as `ℚ`. Every arithmetic step the source
  performs on them (`*`, `+`, and division by the literal `Decimal('100')`)
  is exact in Python's `Decimal` at its default 28-digit context for the
  field widths declared on the models, so rational arithmetic reproduces the
  source values exactly.
* Timestamps (`created_at`, `paid_at`, `timezone.now()`) are minutes as `Int`.
* Django's auto-managed `updated_at` columns are not carried; `created_at`
  is carried where a claim depends on it.
* A DRF view action that mutates rows is embedded as a step function that
  returns the result of the request (success, or the error branch taken)
  together with the post-call state of the rows it touches, so that a
  failing call visibly leaves the state it received unchanged.
-/

namespace Restaurant

/-- Status choices `Table.STATUS_CHOICES` in `models.py`. -/
inductive TableStatus
  | available | occupied | bill_requested | closed
deriving DecidableEq

/-- Status choices `Order.STATUS_CHOICES` in `models.py`. -/
inductive OrderStatus
  | placed | in_kitchen | served | cancelled
deriving DecidableEq

/-- Status choices `Bill.BILL_STATUS_CHOICES` in `models.py`. -/
inductive BillStatus
  | not_generated | pending | paid | cancelled
deriving DecidableEq

/-- Model `Table` (`models.py` lines 11-54). -/
structure Table where
  id : Nat
  table_number : Nat
  seating_capacity : Nat
  status : TableStatus
deriving DecidableEq

/-- Model `MenuItem` (`models.py` lines 61-86). -/
structure MenuItem where
  id : Nat
  name : String
  category : String
  price : ℚ
  is_available : Bool
deriving DecidableEq

/-- Model `OrderItem` (`models.py` lines 135-151): a row of an order,
referencing its `MenuItem` (price is read live through the reference). -/
structure OrderItem where
  menu_item : MenuItem
  quantity : Nat
  special_notes : String
deriving DecidableEq

/-- Model `Order` (`models.py` lines 93-132). The reverse relation
`order.items` is embedded as the list of its `OrderItem` rows; the reverse
relation `table.orders` is supplied to the scheduler jobs explicitly. -/
structure Order where
  status : OrderStatus
  notes : String
  created_at : Int
  items : List OrderItem
deriving DecidableEq

/-- Model `Bill` (`models.py` lines 158-212). -/
structure Bill where
  id : Nat
  table : Table
  order : Option Order
  subtotal : ℚ
  tax_percentage : ℚ
  tax_amount : ℚ
  total_amount : ℚ
  status : BillStatus
  created_at : Int
  paid_at : Option Int
deriving DecidableEq

/-- A user row, as far as the notification helpers need one. -/
structure UserRef where
  id : Nat
deriving DecidableEq

/-- Model `Notification` (`models.py` lines 223-258), the fields written by
`Notification.objects.create` in `notifications.py` / `tasks.py`. -/
structure Notification where
  user : UserRef
  notification_type : String
  title : String
  message : String
  table_id : Option Nat
  order_id : Option Nat
  bill_id : Option Nat
deriving DecidableEq

/-- Method `Table.mark_occupied` (`models.py` lines 40-44): only an available table
changes; otherwise the method falls through without saving. -/
def Table.mark_occupied (t : Table) : Table :=
  if t.status = .available then { t with status := .occupied } else t

/-- Method `Table.request_bill` (`models.py` lines 46-49): unconditional. -/
def Table.request_bill (t : Table) : Table :=
  { t with status := .bill_requested }

/-- Method `Table.reset_to_available` (`models.py` lines 51-54): unconditional. -/
def Table.reset_to_available (t : Table) : Table :=
  { t with status := .available }

/-- Method `OrderItem.get_total_price` (`models.py` lines 149-151). -/
def OrderItem.get_total_price (it : OrderItem) : ℚ :=
  it.menu_item.price * it.quantity

/-- Method `Order.calculate_subtotal` (`models.py` lines 118-120). -/
def Order.calculate_subtotal (o : Order) : ℚ :=
  (o.items.map OrderItem.get_total_price).sum

/-- Method `Order.send_to_kitchen` (`models.py` lines 122-126): guarded in-place
transition, silent fall-through when the guard fails. -/
def Order.send_to_kitchen (o : Order) : Order :=
  if o.status = .placed then { o with status := .in_kitchen } else o

/-- Method `Order.mark_served` (`models.py` lines 128-132). -/
def Order.mark_served (o : Order) : Order :=
  if o.status = .in_kitchen then { o with status := .served } else o

/-- Method `Bill.generate_bill` (`models.py` lines 196-203): associates the order,
recomputes `subtotal`, `tax_amount = subtotal * tax_percentage / 100`,
`total_amount = subtotal + tax_amount` in exact decimal arithmetic, and sets
status to pending. No rounding happens anywhere in the method. -/
def Bill.generate_bill (b : Bill) (order : Order) : Bill :=
  let subtotal := order.calculate_subtotal
  let tax_amount := subtotal * b.tax_percentage / 100
  { b with
      order := some order
      subtotal := subtotal
      tax_amount := tax_amount
      total_amount := subtotal + tax_amount
      status := .pending }

/-- Method `Bill.mark_as_paid` (`models.py` lines 205-212): sets status, `paid_at`,
and resets the bill's table to available. -/
def Bill.mark_as_paid (b : Bill) (now : Int) : Bill :=
  { b with
      status := .paid
      paid_at := some now
      table := b.table.reset_to_available }

/-- The distinct error responses (HTTP 400 branches) returned by the view
actions in `views.py` that the claims exercise. Each constructor is one
HTTP-400 `return Response` site with the quoted error text. -/
inductive ApiError
  /-- Response `Cannot send empty order to kitchen.` (`views.py` line 285)
  and `Cannot generate bill for order with no items.` (line 389). -/
  | emptyOrder
  /-- Response `Order is already <status>.` (`views.py` line 291) and
  `Order is <status>.` (line 308). -/
  | invalidState
  /-- Response `Bill is already paid.` (`views.py` line 411). -/
  | alreadyPaid
  /-- Response `<name> is not available.` (`views.py` line 249). -/
  | itemUnavailable
  /-- Response `Quantity must be a positive integer.` (`views.py` line 259). -/
  | invalidQuantity
deriving DecidableEq

/-- Upsert `OrderItem.objects.update_or_create` keyed by order and
menu item, with quantity and special_notes as the overwritten defaults
(`views.py` lines 264-268), restricted to one order's rows: if a row keyed by this menu item
exists it is overwritten in place, otherwise a row is appended.
The `unique_together` constraint on the pair of order and menu_item
(`models.py` lines 143-144) is the invariant that at most one row of an
order carries a given menu-item key. -/
def upsertOrderItem (items : List OrderItem) (mi : MenuItem) (qty : Nat)
    (notes : String) : List OrderItem :=
  match items with
  | [] => [{ menu_item := mi, quantity := qty, special_notes := notes }]
  | it :: rest =>
    if it.menu_item.id = mi.id then
      { menu_item := mi, quantity := qty, special_notes := notes } :: rest
    else
      it :: upsertOrderItem rest mi qty notes

/-- Action `OrderViewSet.add_item` (`views.py` lines 217-276) after the menu-item
lookup: availability check, positive-integer quantity check, then the
upsert. -/
def addItemView (o : Order) (mi : MenuItem) (quantity : Int) (notes : String) :
    Except ApiError Unit × Order :=
  if mi.is_available = false then (.error .itemUnavailable, o)
  else if quantity < 1 then (.error .invalidQuantity, o)
  else (.ok (), { o with items := upsertOrderItem o.items mi quantity.toNat notes })

/-- Action `OrderViewSet.send_to_kitchen` (`views.py` lines 278-299): empty-order
check first, then status check, then the model transition. -/
def sendToKitchenView (o : Order) : Except ApiError Unit × Order :=
  if o.items = [] then (.error .emptyOrder, o)
  else if o.status ≠ .placed then (.error .invalidState, o)
  else (.ok (), o.send_to_kitchen)

/-- Action `OrderViewSet.mark_served` (`views.py` lines 301-316). -/
def markServedView (o : Order) : Except ApiError Unit × Order :=
  if o.status ≠ .in_kitchen then (.error .invalidState, o)
  else (.ok (), o.mark_served)

/-- Action `BillViewSet.generate_bill` (`views.py` lines 361-399) after the order
lookup: empty-order check, then `bill.generate_bill(order)` followed by
`bill.table.request_bill()`. -/
def generateBillView (b : Bill) (order : Order) : Except ApiError Unit × Bill :=
  if order.items = [] then (.error .emptyOrder, b)
  else
    let b1 := b.generate_bill order
    (.ok (), { b1 with table := b1.table.request_bill })

/-- Action `BillViewSet.mark_as_paid` (`views.py` lines 401-423): rejects an
already-paid bill before touching anything, otherwise runs
`bill.mark_as_paid()`. -/
def markAsPaidView (b : Bill) (now : Int) : Except ApiError Unit × Bill :=
  if b.status = .paid then (.error .alreadyPaid, b)
  else (.ok (), b.mark_as_paid now)

/-- Helper `notify_manager_pending_bill` (`notifications.py` lines 43-68): one
`bill_pending` notification per manager. -/
def notify_manager_pending_bill (bill : Bill) (managers : List UserRef)
    (hours_pending : Nat) : List Notification :=
  managers.map fun m =>
    { user := m
      notification_type := "bill_pending"
      title := "Bill #" ++ toString bill.id ++ " Pending Payment - Table " ++
        toString bill.table.table_number
      message := "Bill for Table " ++ toString bill.table.table_number ++
        " (₹" ++ toString bill.total_amount ++ ") has been pending for " ++
        toString hours_pending ++ " hours"
      table_id := some bill.table.id
      order_id := none
      bill_id := some bill.id }

/-- Task `check_pending_bills` (`tasks.py` lines 41-68): selects bills with
status pending and `created_at ≤ now - 2h`, and notifies the managers about
each of them. The source guards each notification with
`hasattr` of an attribute named by the string _notification_sent, but the attribute is set on an
object freshly materialized from the queryset and discarded when the task
returns, so the guard passes for every selected bill on every run; the
embedding reflects that the guard never suppresses a notification. -/
def check_pending_bills (bills : List Bill) (managers : List UserRef)
    (now : Int) : List Notification :=
  (bills.filter fun b =>
      decide (b.status = .pending ∧ b.created_at ≤ now - 120)).flatMap
    fun b => notify_manager_pending_bill b managers 2

/-- Query `table.orders.latest` by created_at (`tasks.py` line 89): the order with
the greatest `created_at`, `none` when the table has no orders. -/
def latestOrder : List Order → Option Order
  | [] => none
  | o :: rest =>
    match latestOrder rest with
    | none => some o
    | some o2 => if o.created_at ≥ o2.created_at then some o else some o2

/-- A `Table` row together with its reverse relation `table.orders`. -/
structure TableRow where
  table : Table
  orders : List Order
deriving DecidableEq

/-- The body of the per-table loop of `check_abandoned_tables` (`tasks.py`
lines 87-108): for an occupied table, when its latest order exists and is
more than 4 hours old, the table is closed and every manager is notified;
a table whose `latest_order` is `None` falls through unchanged. -/
def reclaimRow (row : TableRow) (managers : List UserRef) (now : Int) :
    TableRow × List Notification :=
  if row.table.status = .occupied then
    match latestOrder row.orders with
    | some o =>
      if now - o.created_at > 240 then
        ({ row with table := { row.table with status := .closed } },
         managers.map fun m =>
           { user := m
             notification_type := "table_abandoned"
             title := "Table " ++ toString row.table.table_number ++ " Auto-Closed"
             message := "Table " ++ toString row.table.table_number ++
               " was occupied for 4+ hours and has been auto-closed"
             table_id := some row.table.id
             order_id := none
             bill_id := none })
      else (row, [])
    | none => (row, [])
  else (row, [])

/-- Task `check_abandoned_tables` (`tasks.py` lines 70-122): the occupied-table
loop applied to every table row; the trailing pending-bill loop of the task
body is a `pass` and mutates nothing. Returns the updated table rows and
the notifications created. -/
def check_abandoned_tables (rows : List TableRow) (managers : List UserRef)
    (now : Int) : List TableRow × List Notification :=
  let results := rows.map fun r => reclaimRow r managers now
  (results.map Prod.fst, (results.map Prod.snd).flatten)

/-- Modelled from the spec wording only (for comparison against the source):
Python's `round(x)` on `Decimal`, i.e. rounding to the nearest integer with
ROUND_HALF_EVEN tie-breaking. -/
def roundHalfEven (q : ℚ) : ℤ :=
  let n := ⌊q⌋
  let frac := q - n
  if frac < 1 / 2 then n
  else if 1 / 2 < frac then n + 1
  else if n % 2 = 0 then n else n + 1

/-- Modelled from the spec wording only: `round(x, 2)`, quantization to two
decimal places of currency with ROUND_HALF_EVEN. -/
def round2 (q : ℚ) : ℚ :=
  (roundHalfEven (q * 100) : ℚ) / 100

/-! Concrete rows used by witnesses and counterexamples. -/

/-- A menu item priced at ₹0.10 (any price that is not a multiple of ₹0.20
exposes the missing rounding at the default 5% tax). -/
def miTea : MenuItem :=
  { id := 1, name := "Tea", category := "drinks", price := 1 / 10,
    is_available := true }

def tableOne : Table :=
  { id := 1, table_number := 1, seating_capacity := 4, status := .occupied }

/-- A placed order on `tableOne` holding one `miTea`. -/
def orderTea : Order :=
  { status := .placed, notes := "", created_at := 0,
    items := [{ menu_item := miTea, quantity := 1, special_notes := "" }] }

/-- A bill for `tableOne` at the default `tax_percentage` of 5, not yet
generated. -/
def billOne : Bill :=
  { id := 1, table := tableOne, order := none, subtotal := 0,
    tax_percentage := 5, tax_amount := 0, total_amount := 0,
    status := .not_generated, created_at := 0, paid_at := none }

/-- State of `billOne` after generation from `orderTea`: status pending,
created at time 0, table still occupied. -/
def billPending : Bill :=
  billOne.generate_bill orderTea

/-- A not-yet-generated bill whose table has been closed, for exercising
bill generation against a non-occupied table. -/
def billClosedTable : Bill :=
  { billOne with table := { tableOne with status := .closed } }

/-- Copy of `orderTea` already served, for exercising the guard
fall-throughs. -/
def orderServed : Order :=
  { orderTea with status := .served }

def managerA : UserRef := { id := 7 }

/-- An occupied table that never received any order. -/
def rowNoOrders : TableRow :=
  { table := tableOne, orders := [] }

/-! Claim theorems. -/

/-- C1 (counterexample): the rounding clause of the claim fails on the code.
With the default 5% tax and a one-item order of one ₹0.10 item,
`Bill.generate_bill` stores `tax_amount = 0.005` exactly, while
`round(subtotal * tax_percentage / 100, 2) = 0.00`; the two differ, so it
is false that after `generateBill` the bill satisfies
`tax_amount == round(subtotal * tax_percentage / 100, 2)`. -/
theorem generate_bill_rounding_cx :
    orderTea.items ≠ [] ∧
    (billOne.generate_bill orderTea).tax_amount ≠
      round2 ((billOne.generate_bill orderTea).subtotal *
        (billOne.generate_bill orderTea).tax_percentage / 100) := by
  constructor
  · decide
  · norm_num [billOne, orderTea, miTea, Bill.generate_bill,
      Order.calculate_subtotal, OrderItem.get_total_price, round2,
      roundHalfEven]

/-- C1 (amended): after `generateBill(bill, order)` on an order with at
least one item, the bill satisfies the same relations without rounding:
`subtotal` is the sum over the order's items of quantity times menu-item
price, `tax_amount = subtotal * tax_percentage / 100` exactly, and
`total_amount = subtotal + tax_amount` exactly; no quantization to 2
decimal places is applied by the operation. -/
theorem generate_bill_amounts_exact (b : Bill) (o : Order)
    (h : o.items ≠ []) :
    (b.generate_bill o).subtotal = o.calculate_subtotal ∧
    (b.generate_bill o).tax_amount =
      (b.generate_bill o).subtotal * (b.generate_bill o).tax_percentage / 100 ∧
    (b.generate_bill o).total_amount =
      (b.generate_bill o).subtotal + (b.generate_bill o).tax_amount :=
  ⟨rfl, rfl, rfl⟩

/-- Witness for C1 (amended) at `billOne` and `orderTea`. -/
theorem generate_bill_amounts_exact_witness :
    orderTea.items ≠ [] ∧
    ((billOne.generate_bill orderTea).subtotal = orderTea.calculate_subtotal ∧
     (billOne.generate_bill orderTea).tax_amount =
       (billOne.generate_bill orderTea).subtotal *
         (billOne.generate_bill orderTea).tax_percentage / 100 ∧
     (billOne.generate_bill orderTea).total_amount =
       (billOne.generate_bill orderTea).subtotal +
         (billOne.generate_bill orderTea).tax_amount) :=
  ⟨by decide, generate_bill_amounts_exact billOne orderTea (by decide)⟩

/-- C2: for every bill whose status is not paid, `payBill`
(`BillViewSet.mark_as_paid`) succeeds, and the single resulting state
carries both mutations together: the bill's status is paid, `paid_at` is
the current time, and the bill's table is available. In this sequential
embedding the operation is one function producing both effects at once, so
the two mutations stand or fall together. -/
theorem markAsPaidView_pays_and_frees_table (b : Bill) (now : Int)
    (h : b.status ≠ .paid) :
    markAsPaidView b now = (.ok (), b.mark_as_paid now) ∧
    (b.mark_as_paid now).status = .paid ∧
    (b.mark_as_paid now).paid_at = some now ∧
    (b.mark_as_paid now).table.status = .available :=
  ⟨by simp [markAsPaidView, h], rfl, rfl, rfl⟩

/-- Witness for C2 at the pending bill `billPending`, paid at time 100. -/
theorem markAsPaidView_pays_and_frees_table_witness :
    billPending.status ≠ .paid ∧
    (markAsPaidView billPending 100 = (.ok (), billPending.mark_as_paid 100) ∧
     (billPending.mark_as_paid 100).status = .paid ∧
     (billPending.mark_as_paid 100).paid_at = some 100 ∧
     (billPending.mark_as_paid 100).table.status = .available) :=
  ⟨by decide, markAsPaidView_pays_and_frees_table billPending 100 (by decide)⟩

/-- C3: once a first `payBill` call has succeeded on a bill, a second
`payBill` call on the resulting bill fails with the already-paid error and
returns exactly the state it received: status, `paid_at`, all amounts and
the table's status are identical before and after the failing call. -/
theorem markAsPaidView_second_call_fails_unchanged (b : Bill)
    (now1 now2 : Int) (h : (markAsPaidView b now1).1 = .ok ()) :
    markAsPaidView (markAsPaidView b now1).2 now2 =
      (.error .alreadyPaid, (markAsPaidView b now1).2) := by
  by_cases hb : b.status = .paid
  · simp [markAsPaidView, hb] at h
  · simp [markAsPaidView, hb, Bill.mark_as_paid]

/-- Witness for C3 at `billPending`, first paid at 100, retried at 200. -/
theorem markAsPaidView_second_call_fails_unchanged_witness :
    (markAsPaidView billPending 100).1 = .ok () ∧
    markAsPaidView (markAsPaidView billPending 100).2 200 =
      (.error .alreadyPaid, (markAsPaidView billPending 100).2) :=
  ⟨rfl,
   markAsPaidView_second_call_fails_unchanged billPending 100 200 rfl⟩

/-- C7: `generateBill` is idempotent for a fixed order item set and fully
replacing for a different order: generating twice with the same order gives
the very same bill (hence identical subtotal, tax and total), and
re-generating a bill from another order gives exactly the bill obtained by
generating from that order directly — no accumulation from the previous
generation survives. -/
theorem generate_bill_idempotent_and_replacing (b : Bill) (o1 o2 : Order) :
    (b.generate_bill o1).generate_bill o1 = b.generate_bill o1 ∧
    (b.generate_bill o1).generate_bill o2 = b.generate_bill o2 :=
  ⟨rfl, rfl⟩

/-- C9: for every bill and order with at least one item,
`BillViewSet.generate_bill` succeeds and unconditionally sets the bill's
table to bill_requested, whatever the table's previous status was (the
theorem quantifies over every bill, hence over every prior table status,
including available and closed). -/
theorem generateBillView_sets_bill_requested (b : Bill) (o : Order)
    (h : o.items ≠ []) :
    (generateBillView b o).1 = .ok () ∧
    (generateBillView b o).2.table.status = .bill_requested := by
  simp [generateBillView, h, Bill.generate_bill, Table.request_bill]

/-- Witness for C9 at a bill whose table is closed. -/
theorem generateBillView_sets_bill_requested_witness :
    orderTea.items ≠ [] ∧
    ((generateBillView billClosedTable orderTea).1 = .ok () ∧
     (generateBillView billClosedTable orderTea).2.table.status =
       .bill_requested) :=
  ⟨by decide,
   generateBillView_sets_bill_requested billClosedTable orderTea (by decide)⟩

/-- C10: the model-level guarded transitions are silent no-ops when their
guard fails: `Order.send_to_kitchen` with a status other than placed,
`Order.mark_served` with a status other than in_kitchen, and
`Table.mark_occupied` with a status other than available all return the
record they received, every field unchanged, and signal no error. -/
theorem model_guard_fallthroughs_are_noops (o : Order) (t : Table) :
    (o.status ≠ .placed → o.send_to_kitchen = o) ∧
    (o.status ≠ .in_kitchen → o.mark_served = o) ∧
    (t.status ≠ .available → t.mark_occupied = t) :=
  ⟨fun h => by simp [Order.send_to_kitchen, h],
   fun h => by simp [Order.mark_served, h],
   fun h => by simp [Table.mark_occupied, h]⟩

/-- Witness for C10 at a served order and an occupied table. -/
theorem model_guard_fallthroughs_are_noops_witness :
    orderServed.send_to_kitchen = orderServed ∧
    orderServed.mark_served = orderServed ∧
    tableOne.mark_occupied = tableOne :=
  ⟨(model_guard_fallthroughs_are_noops orderServed tableOne).1 (by decide),
   (model_guard_fallthroughs_are_noops orderServed tableOne).2.1 (by decide),
   (model_guard_fallthroughs_are_noops orderServed tableOne).2.2 (by decide)⟩

/-- C4: `advanceOrder` to in_kitchen (`OrderViewSet.send_to_kitchen`) fails
with the empty-order error when the order has zero items, fails with the
invalid-state error when it has items but its status is not placed, and
succeeds — transitioning placed to in_kitchen and leaving every other field
unchanged — exactly when the order is placed and has at least one item. -/
theorem sendToKitchenView_guards (o : Order) :
    (o.items = [] → sendToKitchenView o = (.error .emptyOrder, o)) ∧
    (o.items ≠ [] → o.status ≠ .placed →
      sendToKitchenView o = (.error .invalidState, o)) ∧
    (o.items ≠ [] → o.status = .placed →
      sendToKitchenView o = (.ok (), { o with status := .in_kitchen })) ∧
    ((sendToKitchenView o).1 = .ok () ↔ o.status = .placed ∧ o.items ≠ []) := by
  refine ⟨fun h => by simp [sendToKitchenView, h],
          fun h1 h2 => by simp [sendToKitchenView, h1, h2],
          fun h1 h2 => by simp [sendToKitchenView, h1, h2, Order.send_to_kitchen],
          ?_⟩
  by_cases h1 : o.items = [] <;> by_cases h2 : o.status = .placed <;>
    simp [sendToKitchenView, Order.send_to_kitchen, h1, h2]

/-- Witness for C4: the success clause at the placed one-item order
`orderTea`. -/
theorem sendToKitchenView_guards_witness :
    sendToKitchenView orderTea = (.ok (), { orderTea with status := .in_kitchen }) :=
  (sendToKitchenView_guards orderTea).2.2.1 (by decide) (by decide)

/-- C5 (failing input): `check_abandoned_tables` run on an occupied table
with no orders at all — evaluated at minute 300, five hours after the table
was occupied at minute 0 — leaves the table occupied and notifies nobody,
because the task only examines tables whose latest order exists; the claim
(and the task's own docstring) requires such a table to transition to
closed with a manager notification. -/
theorem check_abandoned_tables_skips_orderless_table :
    rowNoOrders.table.status = .occupied ∧ rowNoOrders.orders = [] ∧
    check_abandoned_tables [rowNoOrders] [managerA] 300 = ([rowNoOrders], []) := by
  decide

/-- C6 (failing input): one bill pending since minute 0 and one manager;
`check_pending_bills` run at minute 180 (three hours in) emits exactly one
escalation notification for the bill, and a second run at minute 185, with
the bill still pending, emits one more notification for the same bill to
the same manager — a duplicate within the same escalation window, because
the in-memory already-notified flag never survives the task run. -/
theorem check_pending_bills_renotifies_same_bill :
    billPending.status = .pending ∧ billPending.created_at = 0 ∧
    (check_pending_bills [billPending] [managerA] 180).map
        (fun n => (n.user, n.bill_id)) = [(managerA, some billPending.id)] ∧
    (check_pending_bills [billPending] [managerA] 185).map
        (fun n => (n.user, n.bill_id)) = [(managerA, some billPending.id)] := by
  decide

/-- Filtering an order's item rows by a menu-item key after
`upsertOrderItem` with that key yields exactly the upserted row, provided
the rows respected the unique_together invariant (at most one row per key)
beforehand. -/
theorem filter_upsertOrderItem (mi : MenuItem) (q : Nat) (n : String) :
    ∀ items : List OrderItem,
      items.countP (fun it => it.menu_item.id == mi.id) ≤ 1 →
      (upsertOrderItem items mi q n).filter
          (fun it => it.menu_item.id == mi.id) =
        [{ menu_item := mi, quantity := q, special_notes := n }] := by
  intro items
  induction items with
  | nil => intro _; simp [upsertOrderItem]
  | cons it rest ih =>
    intro h
    by_cases hk : it.menu_item.id = mi.id
    · have hcp : (it :: rest).countP (fun it2 => it2.menu_item.id == mi.id) =
          rest.countP (fun it2 => it2.menu_item.id == mi.id) + 1 := by
        simp [List.countP_cons, hk]
      have hzero : rest.countP (fun it2 => it2.menu_item.id == mi.id) = 0 := by
        rw [hcp] at h
        omega
      have hnil : rest.filter (fun it2 => it2.menu_item.id == mi.id) = [] := by
        have := List.countP_eq_length_filter
          (l := rest) (p := fun it2 => it2.menu_item.id == mi.id)
        rw [this] at hzero
        exact List.eq_nil_of_length_eq_zero hzero
      simp [upsertOrderItem, hk, List.filter_cons, hnil]
    · have hle : rest.countP (fun it2 => it2.menu_item.id == mi.id) ≤ 1 := by
        rw [List.countP_cons] at h
        exact le_trans (Nat.le_add_right _ _) h
      simp [upsertOrderItem, hk, List.filter_cons, ih hle]

/-- C8: `addOrderItem` is an upsert keyed by the order and menu item. For
every order respecting the unique-row invariant, every available menu item
and two positive quantities, calling `add_item` twice with the same menu
item but different quantities and notes succeeds and leaves exactly one
`OrderItem` row for that key, carrying the quantity and notes of the latest
call — overwritten, not summed, and never two rows. -/
theorem addItemView_upsert_single_row (o : Order) (mi : MenuItem)
    (q1 q2 : Int) (n1 n2 : String) (hmi : mi.is_available = true)
    (hq1 : 1 ≤ q1) (hq2 : 1 ≤ q2)
    (huniq : o.items.countP (fun it => it.menu_item.id == mi.id) ≤ 1) :
    (addItemView (addItemView o mi q1 n1).2 mi q2 n2).1 = .ok () ∧
    (addItemView (addItemView o mi q1 n1).2 mi q2 n2).2.items.filter
        (fun it => it.menu_item.id == mi.id) =
      [{ menu_item := mi, quantity := q2.toNat, special_notes := n2 }] := by
  have hlt1 : ¬ q1 < 1 := not_lt.mpr hq1
  have hlt2 : ¬ q2 < 1 := not_lt.mpr hq2
  have e1 : (addItemView o mi q1 n1).2 =
      { o with items := upsertOrderItem o.items mi q1.toNat n1 } := by
    simp [addItemView, hmi, hlt1]
  have hfil1 := filter_upsertOrderItem mi q1.toNat n1 o.items huniq
  have huniq2 : (upsertOrderItem o.items mi q1.toNat n1).countP
      (fun it => it.menu_item.id == mi.id) ≤ 1 := by
    rw [List.countP_eq_length_filter, hfil1]
    simp
  constructor
  · simp [e1, addItemView, hmi, hlt2]
  · rw [e1]
    simp only [addItemView, hmi, hlt2, if_false, if_neg]
    exact filter_upsertOrderItem mi q2.toNat n2 _ huniq2

/-- Witness for C8 at `orderTea` (which already holds one `miTea` row) with
quantities 2 then 5. -/
theorem addItemView_upsert_single_row_witness :
    miTea.is_available = true ∧ (1 : Int) ≤ 2 ∧ (1 : Int) ≤ 5 ∧
    orderTea.items.countP (fun it => it.menu_item.id == miTea.id) ≤ 1 ∧
    ((addItemView (addItemView orderTea miTea 2 "no sugar").2 miTea 5 "less ice").1 = .ok () ∧
     (addItemView (addItemView orderTea miTea 2 "no sugar").2 miTea 5 "less ice").2.items.filter
         (fun it => it.menu_item.id == miTea.id) =
       [{ menu_item := miTea, quantity := (5 : Int).toNat, special_notes := "less ice" }]) :=
  ⟨by decide, by decide, by decide, by decide,
   addItemView_upsert_single_row orderTea miTea 2 5 "no sugar" "less ice"
     (by decide) (by decide) (by decide) (by decide)⟩

end Restaurant
